import Mathlib

/-!
Verification of the SSH tunnel manager (src/main.rs).

The Rust program keeps a `HashMap<usize, TunnelConfig>` of tunnel
definitions, persists it as JSON in `tunnels.json`, writes log lines
to an append-only log file, and attempts SSH connections.  We embed
the registry as an association list with `HashMap`-style insert and
lookup, the durable store as an explicit `StoreFile` value, the log
as a list of strings, and the network as an explicit environment
(`NetEnv`) supplying the outcomes of the TCP connect, the SSH
handshake and the authentication calls.
-/

/-- `fn default_timeout() -> u64 { 30 }` (main.rs lines 30-32),
the serde default for the `timeout` field. -/
def default_timeout : Nat := 30

/-- `struct TunnelConfig` (main.rs lines 10-28): the in-memory form of
one tunnel definition, after serde defaults have been applied. -/
structure TunnelConfig where
  id : Nat
  name : String
  username : String
  hostname : String
  local_port : Nat
  remote_port : Nat
  use_key_auth : Bool
  key_path : Option String
  timeout : Nat
  auto_connect : Bool
  saved_password : Option String
deriving DecidableEq

/-- The persisted (JSON) form of one tunnel record.  Fields carrying a
`#[serde(default)]` (or `default = "default_timeout"`) attribute may be
absent in the stored JSON, which we model with an outer `Option`. -/
structure StoredRecord where
  id : Nat
  name : String
  username : String
  hostname : String
  local_port : Nat
  remote_port : Nat
  use_key_auth : Option Bool
  key_path : Option (Option String)
  timeout : Option Nat
  auto_connect : Option Bool
  saved_password : Option (Option String)
deriving DecidableEq

/-- Serialization of a config: `serde_json::to_string` writes every
field, so every optional slot is filled. -/
def serRecord (c : TunnelConfig) : StoredRecord :=
  { id := c.id
    name := c.name
    username := c.username
    hostname := c.hostname
    local_port := c.local_port
    remote_port := c.remote_port
    use_key_auth := some c.use_key_auth
    key_path := some c.key_path
    timeout := some c.timeout
    auto_connect := some c.auto_connect
    saved_password := some c.saved_password }

/-- Deserialization of a record: serde fills each absent defaulted
field with its default (`false` / `None` / `default_timeout()`). -/
def deserRecord (r : StoredRecord) : TunnelConfig :=
  { id := r.id
    name := r.name
    username := r.username
    hostname := r.hostname
    local_port := r.local_port
    remote_port := r.remote_port
    use_key_auth := r.use_key_auth.getD false
    key_path := r.key_path.getD none
    timeout := r.timeout.getD default_timeout
    auto_connect := r.auto_connect.getD false
    saved_password := r.saved_password.getD none }

/-- The registry mapping (`HashMap<usize, TunnelConfig>`), embedded as
an association list with unique keys. -/
abbrev Reg := List (Nat × TunnelConfig)

/-- `HashMap::get`: first binding of the key, if any. -/
def regLookup (k : Nat) : Reg → Option TunnelConfig
  | [] => none
  | p :: rest => if p.1 = k then some p.2 else regLookup k rest

/-- `HashMap::contains_key`. -/
def regContains (k : Nat) (m : Reg) : Bool :=
  (regLookup k m).isSome

/-- `HashMap::insert`: replace the binding if the key is present,
otherwise append a new binding. -/
def regInsert (k : Nat) (v : TunnelConfig) : Reg → Reg
  | [] => [(k, v)]
  | p :: rest => if p.1 = k then (k, v) :: rest else p :: regInsert k v rest

/-- `HashMap::remove`: drop the binding of the key, if any. -/
def regRemove (k : Nat) : Reg → Reg
  | [] => []
  | p :: rest => if p.1 = k then rest else p :: regRemove k rest

/-- Serialize the whole mapping (`serde_json::to_string(&self.tunnels)`). -/
def serializeReg (m : Reg) : List (Nat × StoredRecord) :=
  m.map fun p => (p.1, serRecord p.2)

/-- Parse a stored mapping back into configs. -/
def deserializeReg (l : List (Nat × StoredRecord)) : Reg :=
  l.map fun p => (p.1, deserRecord p.2)

/-- Contents of a JSON file on disk: absent, present but not parseable
as a tunnel mapping, or a well-formed mapping. -/
inductive StoreFile where
  | absent
  | malformed
  | content (recs : List (Nat × StoredRecord))
deriving DecidableEq

/-- The observable state of the manager process: the in-memory registry
(`self.tunnels`), the durable store (`tunnels.json`), the append-only
log, and a count of completed `save_tunnels` calls. -/
structure World where
  tunnels : Reg
  store : StoreFile
  logLines : List String
  saveCount : Nat
deriving DecidableEq

/-- `fn save_tunnels` (main.rs lines 175-179): serialize the full
mapping and overwrite `tunnels.json`. -/
def save_tunnels (w : World) : World :=
  { w with store := .content (serializeReg w.tunnels)
           saveCount := w.saveCount + 1 }

/-- Environment supplying the results of the external calls made by one
`connect_tunnel` invocation: whether the `SocketAddr` parse of
`hostname:22` at main.rs line 106 succeeds — true exactly when the
hostname is an IP literal; the code calls `.unwrap()` on it, so a
failed parse is a panic before any TCP connect — then the TCP connect
(`some e` is the error of a failed `TcpStream::connect_timeout`),
whether `session.handshake()` succeeds (again `.unwrap()`, so a
failure is a panic), the result of `userauth_pubkey_file`, the result
of `userauth_password` as a function of the password supplied, and the
line `read_password()` would return when the operator is prompted. -/
structure NetEnv where
  addrParseOk : Bool
  tcpError : Option String
  handshakeOk : Bool
  keyAuthError : Option String
  passwordAuthError : String → Option String
  promptInput : String

/-- Terminal result of one `connect_tunnel` call.  `panicAddrParse` is
the `.unwrap()` panic on the `SocketAddr` parse of `hostname:22`
(main.rs line 106, before any TCP connect), `panicHandshake` the
`.unwrap()` panic on a failed handshake; either kills the process. -/
inductive Outcome where
  | noSuchTunnel
  | panicAddrParse
  | networkError (e : String)
  | panicHandshake
  | missingKeyPath
  | authError (e : String)
  | succeeded
deriving DecidableEq

/-- Does the outcome correspond to a process-killing `.unwrap()` panic
(address parse or handshake)? -/
def Outcome.isPanic : Outcome → Bool
  | .panicAddrParse => true
  | .panicHandshake => true
  | _ => false

/-- What one `connect_tunnel` call did: its outcome, which phases ran,
whether the operator was prompted for a password, which password was
passed to `userauth_password` (if any), and the log line written. -/
structure ConnectResult where
  outcome : Outcome
  attemptedHandshake : Bool
  attemptedAuth : Bool
  prompted : Bool
  passwordUsed : Option String
  logMsg : Option String
deriving DecidableEq

/-- The body of `fn connect_tunnel` (main.rs lines 98-149) for a
present config: the `SocketAddr` parse of `hostname:22` (whose
`.unwrap()` panics for a non-IP hostname before anything else), then
the TCP connect bounded by the timeout, then `handshake().unwrap()`,
then the credential dispatch, mirroring the branch structure and
`format!` strings of the source. -/
def connectCore (env : NetEnv) (id : Nat) (config : TunnelConfig) : ConnectResult :=
  if env.addrParseOk = false then
    { outcome := .panicAddrParse
      attemptedHandshake := false
      attemptedAuth := false
      prompted := false
      passwordUsed := none
      logMsg := none }
  else
  match env.tcpError with
  | some e =>
      { outcome := .networkError e
        attemptedHandshake := false
        attemptedAuth := false
        prompted := false
        passwordUsed := none
        logMsg := some ("Ошибка подключения к " ++ config.hostname ++ ": " ++ e) }
  | none =>
      if env.handshakeOk then
        if config.use_key_auth then
          match config.key_path with
          | some _ =>
              match env.keyAuthError with
              | none =>
                  { outcome := .succeeded
                    attemptedHandshake := true
                    attemptedAuth := true
                    prompted := false
                    passwordUsed := none
                    logMsg := some ("Успешное подключение к " ++ config.name
                      ++ " (" ++ config.hostname ++ ")") }
              | some e =>
                  { outcome := .authError e
                    attemptedHandshake := true
                    attemptedAuth := true
                    prompted := false
                    passwordUsed := none
                    logMsg := some ("Ошибка аутентификации: " ++ e
                      ++ " для " ++ config.hostname) }
          | none =>
              { outcome := .missingKeyPath
                attemptedHandshake := true
                attemptedAuth := false
                prompted := false
                passwordUsed := none
                logMsg := some ("Ошибка: Путь к SSH-ключу не указан для ID "
                  ++ Nat.repr id) }
        else
          let prompted := config.saved_password.isNone
          let password := config.saved_password.getD env.promptInput
          match env.passwordAuthError password with
          | none =>
              { outcome := .succeeded
                attemptedHandshake := true
                attemptedAuth := true
                prompted := prompted
                passwordUsed := some password
                logMsg := some ("Успешное подключение к " ++ config.name
                  ++ " (" ++ config.hostname ++ ")") }
          | some e =>
              { outcome := .authError e
                attemptedHandshake := true
                attemptedAuth := true
                prompted := prompted
                passwordUsed := some password
                logMsg := some ("Ошибка аутентификации: " ++ e
                  ++ " для " ++ config.hostname) }
      else
        { outcome := .panicHandshake
          attemptedHandshake := true
          attemptedAuth := false
          prompted := false
          passwordUsed := none
          logMsg := none }

/-- Append the log line of a connect result to the world's log
(`self.log(...)`); a panicked call wrote nothing. -/
def applyConnectLog (w : World) (r : ConnectResult) : World :=
  { w with logLines := w.logLines ++ r.logMsg.toList }

/-- `fn connect_tunnel` (main.rs lines 96-154): look the id up, report
a missing id, otherwise run the connect pipeline.  The registry, the
store and the save count are never touched. -/
def connect_tunnel (env : NetEnv) (w : World) (id : Nat) : World × ConnectResult :=
  match regLookup id w.tunnels with
  | none =>
      let r : ConnectResult :=
        { outcome := .noSuchTunnel
          attemptedHandshake := false
          attemptedAuth := false
          prompted := false
          passwordUsed := none
          logMsg := some ("Ошибка: Туннель с ID " ++ Nat.repr id ++ " не существует") }
      (applyConnectLog w r, r)
  | some config =>
      let r := connectCore env id config
      (applyConnectLog w r, r)

/-- Result of `fn add_tunnel`: which branch of the duplicate check ran. -/
inductive AddOutcome where
  | duplicateId
  | added
deriving DecidableEq

/-- `fn add_tunnel` (main.rs lines 60-70): reject a duplicate id with
only an error log line; otherwise insert, log, and save. -/
def add_tunnel (w : World) (config : TunnelConfig) : World × AddOutcome :=
  if regContains config.id w.tunnels then
    ({ w with logLines := w.logLines
        ++ ["Ошибка: Туннель с ID " ++ Nat.repr config.id ++ " уже существует"] },
     .duplicateId)
  else
    let w1 : World :=
      { w with tunnels := regInsert config.id config w.tunnels
               logLines := w.logLines
                 ++ ["Туннель добавлен: ID=" ++ Nat.repr config.id
                     ++ " Имя=\x27" ++ config.name ++ "\x27"] }
    (save_tunnels w1, .added)

/-- Result of `fn remove_tunnel`. -/
inductive RemoveOutcome where
  | notFound
  | removed
deriving DecidableEq

/-- `fn remove_tunnel` (main.rs lines 72-81): delete a present id, log
and save; report an absent id with only a log line. -/
def remove_tunnel (w : World) (id : Nat) : World × RemoveOutcome :=
  if regContains id w.tunnels then
    let w1 : World :=
      { w with tunnels := regRemove id w.tunnels
               logLines := w.logLines ++ ["Туннель удален: ID=" ++ Nat.repr id] }
    (save_tunnels w1, .removed)
  else
    ({ w with logLines := w.logLines
        ++ ["Ошибка: Туннель с ID " ++ Nat.repr id ++ " не существует"] },
     .notFound)

/-- Ids of the definitions flagged for auto-connect, in registry
iteration order (main.rs lines 187-191). -/
def autoConnectIds (m : Reg) : List Nat :=
  (m.filter fun p => p.2.auto_connect).map fun p => p.1

/-- The auto-connect sweep (main.rs lines 193-196): one
`connect_tunnel` per collected id, in order.  A panic (address parse
or handshake) kills the process, so later ids are never attempted;
the sweep reports the ids actually attempted and whether it
panicked. -/
def runSweep (envs : Nat → NetEnv) (w : World) : List Nat → World × List Nat × Bool
  | [] => (w, [], false)
  | id :: rest =>
      let pr := connect_tunnel (envs id) w id
      if Outcome.isPanic pr.2.outcome = true then
        (pr.1, [id], true)
      else
        let r := runSweep envs pr.1 rest
        (r.1, id :: r.2.1, r.2.2)

/-- The log line printed by a successful read of `tunnels.json`. -/
def loadedMsg : String := "Настройки туннелей загружены."

/-- `fn load_tunnels` (main.rs lines 181-198): when `tunnels.json` is
unreadable nothing happens; when it reads, the registry is replaced by
`serde_json::from_str(..).unwrap_or_default()` — the parsed mapping,
or the empty mapping when the contents are malformed — the success
line is logged either way, and the auto-connect sweep runs. -/
def load_tunnels (envs : Nat → NetEnv) (w : World) : World × List Nat × Bool :=
  match w.store with
  | .absent => (w, [], false)
  | .malformed =>
      let w1 : World := { w with tunnels := [], logLines := w.logLines ++ [loadedMsg] }
      runSweep envs w1 (autoConnectIds w1.tunnels)
  | .content recs =>
      let m := deserializeReg recs
      let w1 : World := { w with tunnels := m, logLines := w.logLines ++ [loadedMsg] }
      runSweep envs w1 (autoConnectIds m)

/-- The merge loop of `fn import_config` (main.rs lines 210-214):
insert every imported binding over the live registry, logging one line
per entry. -/
def importFold (w : World) : List (Nat × TunnelConfig) → World
  | [] => w
  | p :: rest =>
      importFold
        { w with tunnels := regInsert p.1 p.2 w.tunnels
                 logLines := w.logLines
                   ++ ["Туннель \x27" ++ p.2.name ++ "\x27 импортирован"] }
        rest

/-- `fn import_config` (main.rs lines 207-219): an unreadable file only
prints an error; a readable file is parsed with `unwrap_or_default`
(malformed contents give the empty mapping), every parsed entry is
inserted over the live registry, and `save_tunnels` runs once. -/
def import_config (source : StoreFile) (w : World) : World :=
  match source with
  | .absent => w
  | .malformed => save_tunnels (importFold w [])
  | .content recs => save_tunnels (importFold w (deserializeReg recs))

/-- ASCII-faithful model of Rust's `to_lowercase()` on the short
answers the CLI compares against `"y"`. -/
def lowerStr (s : String) : String := ⟨s.data.map Char.toLower⟩

/-- The raw operator answers read by menu command 1 (main.rs lines
244-282), before the CLI assembles a `TunnelConfig` from them. -/
structure CliInput where
  id : Nat
  name : String
  username : String
  hostname : String
  local_port : Nat
  remote_port : Nat
  use_key_answer : String
  key_path_input : String
  timeout_input : Option Nat
  auto_answer : String
  save_answer : String
  password_input : String

/-- The `TunnelConfig` the CLI builds from the operator's answers
(main.rs lines 258-295): `use_key_auth` from a `y` answer, `key_path`
only for key auth and only when non-empty, `timeout` from
`read_optional_u64().unwrap_or(30)`, `saved_password` only for
password auth when the operator says `y`. -/
def mkCliConfig (i : CliInput) : TunnelConfig :=
  let use_key_auth := lowerStr i.use_key_answer == "y"
  { id := i.id
    name := i.name
    username := i.username
    hostname := i.hostname
    local_port := i.local_port
    remote_port := i.remote_port
    use_key_auth := use_key_auth
    key_path :=
      if use_key_auth then
        (if i.key_path_input == "" then none else some i.key_path_input)
      else none
    timeout := i.timeout_input.getD 30
    auto_connect := lowerStr i.auto_answer == "y"
    saved_password :=
      if !use_key_auth && (lowerStr i.save_answer == "y") then
        some i.password_input
      else none }

/-- `SSHManager::new` (main.rs lines 40-53): start with the empty
mapping and run `load_tunnels` against whatever is on disk. -/
def startup (envs : Nat → NetEnv) (store : StoreFile) : World :=
  (load_tunnels envs { tunnels := [], store := store, logLines := [], saveCount := 0 }).1

/-- The registry states the program can reach: a startup against any
disk state, followed by any sequence of the state-changing menu
operations. -/
inductive Reachable : World → Prop
  | startup (envs : Nat → NetEnv) (store : StoreFile) : Reachable (startup envs store)
  | add (i : CliInput) {w : World} :
      Reachable w → Reachable (add_tunnel w (mkCliConfig i)).1
  | remove (id : Nat) {w : World} :
      Reachable w → Reachable (remove_tunnel w id).1
  | connect (env : NetEnv) (id : Nat) {w : World} :
      Reachable w → Reachable (connect_tunnel env w id).1
  | importStep (source : StoreFile) {w : World} :
      Reachable w → Reachable (import_config source w)

/-- Substring test on character lists: `sub` occurs contiguously. -/
def listInfixB (sub : List Char) : List Char → Bool
  | [] => sub.isEmpty
  | c :: rest => sub.isPrefixOf (c :: rest) || listInfixB sub rest

/-- Substring test on strings: does `s` contain `sub`? -/
def strContains (s sub : String) : Bool := listInfixB sub.data s.data

/-! ### Helper lemmas -/

theorem serRecord_deserRecord (c : TunnelConfig) : deserRecord (serRecord c) = c := rfl

theorem deserializeReg_serializeReg (m : Reg) : deserializeReg (serializeReg m) = m := by
  induction m with
  | nil => rfl
  | cons p rest ih =>
      simpa [serializeReg, deserializeReg, serRecord_deserRecord] using ih

theorem connect_tunnel_frame (env : NetEnv) (w : World) (id : Nat) :
    ((connect_tunnel env w id).1).tunnels = w.tunnels ∧
    ((connect_tunnel env w id).1).store = w.store ∧
    ((connect_tunnel env w id).1).saveCount = w.saveCount := by
  rcases hr : regLookup id w.tunnels with _ | config <;>
    simp [connect_tunnel, hr, applyConnectLog]

theorem runSweep_frame (envs : Nat → NetEnv) (w : World) (ids : List Nat) :
    ((runSweep envs w ids).1).tunnels = w.tunnels ∧
    ((runSweep envs w ids).1).store = w.store ∧
    ((runSweep envs w ids).1).saveCount = w.saveCount := by
  induction ids generalizing w with
  | nil => exact ⟨rfl, rfl, rfl⟩
  | cons id rest ih =>
      have hc := connect_tunnel_frame (envs id) w id
      by_cases hp : Outcome.isPanic (connect_tunnel (envs id) w id).2.outcome = true
      · simpa [runSweep, hp] using hc
      · have hrest := ih (connect_tunnel (envs id) w id).1
        simp only [runSweep, hp, if_false]
        exact ⟨hrest.1.trans hc.1, hrest.2.1.trans hc.2.1, hrest.2.2.trans hc.2.2⟩

theorem regLookup_regInsert_self (k : Nat) (v : TunnelConfig) (m : Reg) :
    regLookup k (regInsert k v m) = some v := by
  induction m with
  | nil => simp [regInsert, regLookup]
  | cons p rest ih =>
      by_cases h : p.1 = k <;> simp [regInsert, regLookup, h, ih]

theorem regLookup_regInsert_ne (k k' : Nat) (v : TunnelConfig) (m : Reg)
    (h : k' ≠ k) : regLookup k' (regInsert k v m) = regLookup k' m := by
  induction m with
  | nil => simp [regInsert, regLookup, Ne.symm h]
  | cons p rest ih =>
      by_cases hp : p.1 = k
      · subst hp
        simp [regInsert, regLookup, Ne.symm h]
      · simp only [regInsert, hp, if_false]
        by_cases hk : p.1 = k' <;> simp [regLookup, hk, ih]

theorem regLookup_eq_none_of_not_mem (k : Nat) (m : Reg)
    (h : k ∉ m.map Prod.fst) : regLookup k m = none := by
  induction m with
  | nil => rfl
  | cons p rest ih =>
      simp only [List.map_cons, List.mem_cons] at h
      push_neg at h
      simp [regLookup, Ne.symm h.1, ih h.2]

/-- The registry part of the import merge loop, without the logging. -/
def regFoldIns (l : List (Nat × TunnelConfig)) (m : Reg) : Reg :=
  match l with
  | [] => m
  | p :: rest => regFoldIns rest (regInsert p.1 p.2 m)

theorem importFold_fields (w : World) (l : List (Nat × TunnelConfig)) :
    (importFold w l).tunnels = regFoldIns l w.tunnels ∧
    (importFold w l).store = w.store ∧
    (importFold w l).saveCount = w.saveCount := by
  induction l generalizing w with
  | nil => exact ⟨rfl, rfl, rfl⟩
  | cons p rest ih =>
      simpa [importFold, regFoldIns] using
        ih { w with tunnels := regInsert p.1 p.2 w.tunnels,
                    logLines := w.logLines
                      ++ ["Туннель \x27" ++ p.2.name ++ "\x27 импортирован"] }

theorem regLookup_regFoldIns_of_none (l : List (Nat × TunnelConfig)) (m : Reg)
    (k : Nat) (h : regLookup k l = none) :
    regLookup k (regFoldIns l m) = regLookup k m := by
  induction l generalizing m with
  | nil => rfl
  | cons p rest ih =>
      by_cases hp : p.1 = k
      · simp [regLookup, hp] at h
      · simp only [regLookup, hp, if_false] at h
        simp only [regFoldIns]
        rw [ih _ h, regLookup_regInsert_ne _ _ _ _ (Ne.symm hp)]

theorem regLookup_regFoldIns_of_some (l : List (Nat × TunnelConfig)) (m : Reg)
    (k : Nat) (v : TunnelConfig) (hnd : (l.map Prod.fst).Nodup)
    (h : regLookup k l = some v) :
    regLookup k (regFoldIns l m) = some v := by
  induction l generalizing m with
  | nil => simp [regLookup] at h
  | cons p rest ih =>
      simp only [List.map_cons, List.nodup_cons] at hnd
      by_cases hp : p.1 = k
      · subst hp
        have hv : p.2 = v := by simpa [regLookup] using h
        subst hv
        have hnone : regLookup p.1 rest = none :=
          regLookup_eq_none_of_not_mem _ _ hnd.1
        simp only [regFoldIns]
        rw [regLookup_regFoldIns_of_none _ _ _ hnone, regLookup_regInsert_self]
      · simp only [regLookup, hp, if_false] at h
        simp only [regFoldIns]
        exact ih _ hnd.2 h

theorem connectCore_no_panic (env : NetEnv) (id : Nat) (c : TunnelConfig)
    (hpar : env.addrParseOk = true)
    (h : env.tcpError ≠ none ∨ env.handshakeOk = true) :
    Outcome.isPanic (connectCore env id c).outcome = false := by
  rcases ht : env.tcpError with _ | e
  · have hs : env.handshakeOk = true := by
      rcases h with h | h
      · exact absurd ht h
      · exact h
    rcases hk : c.use_key_auth with _ | _
    · rcases hpw : env.passwordAuthError (c.saved_password.getD env.promptInput)
        with _ | e <;> simp [connectCore, hpar, ht, hs, hk, hpw, Outcome.isPanic]
    · rcases hkp : c.key_path with _ | kp
      · simp [connectCore, hpar, ht, hs, hk, hkp, Outcome.isPanic]
      · rcases hka : env.keyAuthError with _ | e <;>
          simp [connectCore, hpar, ht, hs, hk, hkp, hka, Outcome.isPanic]
  · simp [connectCore, hpar, ht, Outcome.isPanic]

theorem connect_tunnel_no_panic (env : NetEnv) (w : World) (id : Nat)
    (hpar : env.addrParseOk = true)
    (h : env.tcpError ≠ none ∨ env.handshakeOk = true) :
    Outcome.isPanic ((connect_tunnel env w id).2).outcome = false := by
  rcases hr : regLookup id w.tunnels with _ | config
  · simp [connect_tunnel, hr, Outcome.isPanic]
  · simpa [connect_tunnel, hr] using connectCore_no_panic env id config hpar h

theorem runSweep_total (envs : Nat → NetEnv) (w : World) (ids : List Nat)
    (h : ∀ id ∈ ids, (envs id).addrParseOk = true ∧
           ((envs id).tcpError ≠ none ∨ (envs id).handshakeOk = true)) :
    (runSweep envs w ids).2.1 = ids ∧ (runSweep envs w ids).2.2 = false := by
  induction ids generalizing w with
  | nil => exact ⟨rfl, rfl⟩
  | cons id rest ih =>
      have hh := h id (List.mem_cons_self id rest)
      have hnp := connect_tunnel_no_panic (envs id) w id hh.1 hh.2
      have hrest := ih (connect_tunnel (envs id) w id).1
        (fun i hi => h i (List.mem_cons_of_mem _ hi))
      simp only [runSweep, hnp, Bool.false_eq_true, if_false]
      exact ⟨by rw [hrest.1], hrest.2⟩

theorem isPrefixOf_self_append (l t : List Char) : l.isPrefixOf (l ++ t) = true := by
  induction l with
  | nil => simp [List.isPrefixOf]
  | cons c cs ih => simp [List.isPrefixOf, ih]

theorem listInfixB_self_append (b c : List Char) : listInfixB b (b ++ c) = true := by
  rcases b with _ | ⟨x, xs⟩
  · rcases c with _ | ⟨y, ys⟩ <;> simp [listInfixB, List.isEmpty, List.isPrefixOf]
  · simp [listInfixB, isPrefixOf_self_append]

theorem listInfixB_middle (a b c : List Char) : listInfixB b (a ++ b ++ c) = true := by
  induction a with
  | nil => simpa using listInfixB_self_append b c
  | cons x xs ih =>
      have ih' : listInfixB b (xs ++ (b ++ c)) = true := by
        simpa [List.append_assoc] using ih
      simp [listInfixB, ih']

theorem strContains_middle (a b c : String) : strContains (a ++ b ++ c) b = true := by
  show listInfixB b.data ((a.data ++ b.data) ++ c.data) = true
  exact listInfixB_middle a.data b.data c.data

theorem strContains_append_right (a b : String) : strContains (a ++ b) b = true := by
  show listInfixB b.data (a.data ++ b.data) = true
  have := listInfixB_middle a.data b.data []
  simpa using this

/-! ### Concrete fixtures -/

/-- An environment whose address parse succeeds (the fixture hostnames
are IP literals) but whose TCP connect always fails. -/
def envRefused : NetEnv :=
  { addrParseOk := true, tcpError := some "refused", handshakeOk := false,
    keyAuthError := none, passwordAuthError := fun _ => none, promptInput := "" }

/-- Every attempted host refuses the TCP connection. -/
def envsRefused : Nat → NetEnv := fun _ => envRefused

/-- An environment where the address parse, transport, handshake and
authentication all succeed. -/
def envOpen : NetEnv :=
  { addrParseOk := true, tcpError := none, handshakeOk := true,
    keyAuthError := none, passwordAuthError := fun _ => none, promptInput := "pw" }

/-- An environment where the address parse and the TCP connect succeed
and the SSH handshake fails, so `handshake().unwrap()` panics. -/
def envPanic : NetEnv :=
  { addrParseOk := true, tcpError := none, handshakeOk := false,
    keyAuthError := none, passwordAuthError := fun _ => none, promptInput := "" }

/-- Every attempted handshake fails. -/
def envsPanic : Nat → NetEnv := fun _ => envPanic

/-- A password-auth definition with a saved password. -/
def cfgPw : TunnelConfig :=
  { id := 1, name := "db", username := "u", hostname := "10.0.0.5",
    local_port := 5432, remote_port := 5432, use_key_auth := false,
    key_path := none, timeout := 30, auto_connect := false,
    saved_password := some "x" }

/-- A registry holding `cfgPw` under id 1. -/
def world0 : World :=
  { tunnels := [(1, cfgPw)], store := .absent, logLines := [], saveCount := 0 }

/-- The empty registry over an absent store. -/
def emptyWorld : World :=
  { tunnels := [], store := .absent, logLines := [], saveCount := 0 }

/-- A stored record with every defaulted field absent. -/
def record0 : StoredRecord :=
  { id := 1, name := "db", username := "u", hostname := "10.0.0.5",
    local_port := 5432, remote_port := 5432, use_key_auth := none,
    key_path := none, timeout := none, auto_connect := none,
    saved_password := none }

/-! ### Claim C1 -/

/-- Claim C1: for every registry contents, `save_tunnels` followed by
`load_tunnels` reproduces the same tunnel definitions, and a persisted
record missing any defaulted field (`use_key_auth`, `key_path`,
`timeout`, `auto_connect`, `saved_password`) loads with its stated
default; in particular a record missing `timeout` loads with 30. -/
theorem save_load_roundtrip_and_defaults :
    (∀ (envs : Nat → NetEnv) (w : World),
       ((load_tunnels envs (save_tunnels w)).1).tunnels = w.tunnels) ∧
    (∀ r : StoredRecord,
       (r.use_key_auth = none → (deserRecord r).use_key_auth = false) ∧
       (r.key_path = none → (deserRecord r).key_path = none) ∧
       (r.timeout = none → (deserRecord r).timeout = 30) ∧
       (r.auto_connect = none → (deserRecord r).auto_connect = false) ∧
       (r.saved_password = none → (deserRecord r).saved_password = none)) := by
  constructor
  · intro envs w
    rcases w with ⟨t, st, lg, sc⟩
    have h : ((load_tunnels envs ⟨t, .content (serializeReg t), lg, sc + 1⟩).1).tunnels
        = deserializeReg (serializeReg t) :=
      (runSweep_frame envs
        ⟨deserializeReg (serializeReg t), .content (serializeReg t),
          lg ++ [loadedMsg], sc + 1⟩
        (autoConnectIds (deserializeReg (serializeReg t)))).1
    exact h.trans (deserializeReg_serializeReg t)
  · intro r
    exact ⟨fun h => by simp [deserRecord, h],
           fun h => by simp [deserRecord, h],
           fun h => by simp [deserRecord, h, default_timeout],
           fun h => by simp [deserRecord, h],
           fun h => by simp [deserRecord, h]⟩

/-- Witness for C1 at a concrete registry and a concrete record whose
`timeout` field is absent. -/
theorem save_load_roundtrip_and_defaults_witness :
    ((load_tunnels envsRefused (save_tunnels world0)).1).tunnels = world0.tunnels ∧
    (deserRecord record0).timeout = 30 :=
  ⟨save_load_roundtrip_and_defaults.1 envsRefused world0,
   (save_load_roundtrip_and_defaults.2 record0).2.2.1 rfl⟩

/-! ### Claim C2 -/

/-- Claim C2: adding a definition whose id is already present reports
the duplicate and changes neither the registry, the store, nor the
save count; adding a fresh id inserts the definition and persists. -/
theorem add_tunnel_duplicate_or_insert (w : World) (config : TunnelConfig) :
    (regContains config.id w.tunnels = true →
       (add_tunnel w config).2 = .duplicateId ∧
       ((add_tunnel w config).1).tunnels = w.tunnels ∧
       ((add_tunnel w config).1).store = w.store ∧
       ((add_tunnel w config).1).saveCount = w.saveCount) ∧
    (regContains config.id w.tunnels = false →
       (add_tunnel w config).2 = .added ∧
       regLookup config.id ((add_tunnel w config).1).tunnels = some config ∧
       (∀ k, k ≠ config.id →
          regLookup k ((add_tunnel w config).1).tunnels = regLookup k w.tunnels) ∧
       ((add_tunnel w config).1).store =
         .content (serializeReg ((add_tunnel w config).1).tunnels) ∧
       ((add_tunnel w config).1).saveCount = w.saveCount + 1) := by
  constructor
  · intro h
    simp [add_tunnel, h]
  · intro h
    refine ⟨by simp [add_tunnel, h], ?_, ?_, by simp [add_tunnel, h, save_tunnels], by simp [add_tunnel, h, save_tunnels]⟩
    · simp [add_tunnel, h, save_tunnels, regLookup_regInsert_self]
    · intro k hk
      simp [add_tunnel, h, save_tunnels, regLookup_regInsert_ne _ _ _ _ hk]

/-- Witness for C2: a duplicate add on a present id, and a fresh add
on the empty registry. -/
theorem add_tunnel_duplicate_or_insert_witness :
    (add_tunnel world0 cfgPw).2 = .duplicateId ∧
    ((add_tunnel world0 cfgPw).1).tunnels = world0.tunnels ∧
    (add_tunnel emptyWorld cfgPw).2 = .added ∧
    ((add_tunnel emptyWorld cfgPw).1).saveCount = emptyWorld.saveCount + 1 :=
  ⟨((add_tunnel_duplicate_or_insert world0 cfgPw).1 rfl).1,
   ((add_tunnel_duplicate_or_insert world0 cfgPw).1 rfl).2.1,
   ((add_tunnel_duplicate_or_insert emptyWorld cfgPw).2 rfl).1,
   ((add_tunnel_duplicate_or_insert emptyWorld cfgPw).2 rfl).2.2.2.2⟩

/-! ### Claim C3 -/

/-- The registry world at startup over a malformed `tunnels.json`. -/
def worldMalformed : World :=
  { tunnels := [], store := .malformed, logLines := [], saveCount := 0 }

/-- Claim C3 (code divergence): with a present but malformed store the
code silently resets the registry to empty and even logs the success
line — there is no `CorruptStore` failure; with an absent store the
load indeed leaves the empty registry untouched with no error. -/
theorem load_malformed_silently_resets :
    ((load_tunnels envsRefused worldMalformed).1).tunnels = [] ∧
    ((load_tunnels envsRefused worldMalformed).1).logLines = [loadedMsg] ∧
    (load_tunnels envsRefused emptyWorld).1 = emptyWorld :=
  ⟨rfl, rfl, rfl⟩

/-! ### Claim C10 -/

/-- Claim C10: a `connect_tunnel` call — whatever its outcome, the id
being absent included — leaves the registry mapping, the durable store
and the save count unchanged. -/
theorem connect_tunnel_pure_frame (env : NetEnv) (w : World) (id : Nat) :
    ((connect_tunnel env w id).1).tunnels = w.tunnels ∧
    ((connect_tunnel env w id).1).store = w.store ∧
    ((connect_tunnel env w id).1).saveCount = w.saveCount :=
  connect_tunnel_frame env w id

/-! ### Claim C6 -/

/-- Keys are unchanged by parsing a stored mapping. -/
theorem deserializeReg_keys (l : List (Nat × StoredRecord)) :
    (deserializeReg l).map Prod.fst = l.map Prod.fst := by
  induction l with
  | nil => rfl
  | cons p rest ih => simp [deserializeReg] at ih ⊢

/-- Claim C6: importing a readable, well-formed mapping merges it into
the live registry with last-writer-wins semantics per id — every
imported id now maps to its imported definition, every other id keeps
its prior binding — and the registry is persisted exactly once. -/
theorem import_config_merge_and_persist (w : World) (recs : List (Nat × StoredRecord))
    (hnd : (recs.map Prod.fst).Nodup) :
    (∀ k v, regLookup k (deserializeReg recs) = some v →
       regLookup k ((import_config (.content recs) w).tunnels) = some v) ∧
    (∀ k, regLookup k (deserializeReg recs) = none →
       regLookup k ((import_config (.content recs) w).tunnels) = regLookup k w.tunnels) ∧
    (import_config (.content recs) w).saveCount = w.saveCount + 1 ∧
    (import_config (.content recs) w).store =
      .content (serializeReg ((import_config (.content recs) w).tunnels)) := by
  have hnd' : ((deserializeReg recs).map Prod.fst).Nodup := by
    rw [deserializeReg_keys]; exact hnd
  have hf := importFold_fields w (deserializeReg recs)
  have htun : ((import_config (.content recs) w).tunnels)
      = regFoldIns (deserializeReg recs) w.tunnels := by
    show ((save_tunnels (importFold w (deserializeReg recs))).tunnels) = _
    simpa [save_tunnels] using hf.1
  refine ⟨?_, ?_, ?_, ?_⟩
  · intro k v h
    rw [htun]
    exact regLookup_regFoldIns_of_some _ _ _ _ hnd' h
  · intro k h
    rw [htun]
    exact regLookup_regFoldIns_of_none _ _ _ h
  · show (save_tunnels (importFold w (deserializeReg recs))).saveCount = w.saveCount + 1
    simp [save_tunnels, hf.2.2]
  · show (save_tunnels (importFold w (deserializeReg recs))).store = _
    simp [save_tunnels]
    rw [htun, hf.1]

/-- A definition imported over the stored id 1, with a different name. -/
def cfgImp : TunnelConfig :=
  { id := 1, name := "imported", username := "u2", hostname := "10.0.0.9",
    local_port := 80, remote_port := 81, use_key_auth := false,
    key_path := none, timeout := 10, auto_connect := false,
    saved_password := none }

/-- The imported file: a single well-formed record under id 1. -/
def recsImp : List (Nat × StoredRecord) := [(1, serRecord cfgImp)]

/-- Witness for C6: importing id 1 over a registry already holding id 1
replaces the stored definition and bumps the save count once. -/
theorem import_config_merge_and_persist_witness :
    regLookup 1 ((import_config (.content recsImp) world0).tunnels) = some cfgImp ∧
    (import_config (.content recsImp) world0).saveCount = world0.saveCount + 1 :=
  ⟨(import_config_merge_and_persist world0 recsImp (by decide)).1 1 cfgImp rfl,
   (import_config_merge_and_persist world0 recsImp (by decide)).2.2.1⟩

/-! ### Claim C4 -/

/-- A key-auth definition with no key path configured; the hostname is
an IP literal, so the address parse at main.rs line 106 succeeds. -/
def cfgKeyNoPath : TunnelConfig :=
  { id := 5, name := "kt", username := "u", hostname := "192.168.0.5",
    local_port := 1, remote_port := 2, use_key_auth := true,
    key_path := none, timeout := 30, auto_connect := false,
    saved_password := none }

/-- A registry holding `cfgKeyNoPath` under id 5. -/
def worldKey : World :=
  { tunnels := [(5, cfgKeyNoPath)], store := .absent, logLines := [], saveCount := 0 }

/-- Counterexample to C4 as stated: on a key-auth definition with no
key path the attempt does end in the missing-key-path failure, but the
SSH handshake HAS been performed by then — the code only checks
`key_path` after `session.handshake().unwrap()` — so the failure is
not reached "without attempting the SSH handshake". -/
theorem missing_key_path_after_handshake :
    ((connect_tunnel envOpen worldKey 5).2).outcome = .missingKeyPath ∧
    ((connect_tunnel envOpen worldKey 5).2).attemptedHandshake = true :=
  ⟨rfl, rfl⟩

/-- Claim C4 as amended: with the hostname parsing as a socket
address, the transport established and the handshake done, a key-auth
definition lacking a key path fails with the missing-key-path outcome
and no authentication step — and no password prompt — is ever
attempted. -/
theorem missing_key_path_no_auth (env : NetEnv) (w : World) (id : Nat)
    (cfg : TunnelConfig)
    (hlook : regLookup id w.tunnels = some cfg)
    (hkey : cfg.use_key_auth = true) (hpath : cfg.key_path = none)
    (hpar : env.addrParseOk = true)
    (htcp : env.tcpError = none) (hhs : env.handshakeOk = true) :
    ((connect_tunnel env w id).2).outcome = .missingKeyPath ∧
    ((connect_tunnel env w id).2).attemptedAuth = false ∧
    ((connect_tunnel env w id).2).prompted = false ∧
    ((connect_tunnel env w id).2).passwordUsed = none := by
  simp [connect_tunnel, hlook, connectCore, hkey, hpath, hpar, htcp, hhs, applyConnectLog]

/-- Witness for the amended C4 at the concrete fixture. -/
theorem missing_key_path_no_auth_witness :
    ((connect_tunnel envOpen worldKey 5).2).attemptedAuth = false ∧
    ((connect_tunnel envOpen worldKey 5).2).prompted = false :=
  ⟨(missing_key_path_no_auth envOpen worldKey 5 cfgKeyNoPath rfl rfl rfl rfl rfl rfl).2.1,
   (missing_key_path_no_auth envOpen worldKey 5 cfgKeyNoPath rfl rfl rfl rfl rfl rfl).2.2.1⟩

/-! ### Claim C5 -/

/-- Core of C5: with a saved password the pipeline never prompts, and
whenever `userauth_password` runs it receives exactly the saved
password. -/
theorem connectCore_saved_password (env : NetEnv) (id : Nat)
    (cfg : TunnelConfig) (p : String) (hsaved : cfg.saved_password = some p) :
    (connectCore env id cfg).prompted = false ∧
    (∀ q, (connectCore env id cfg).passwordUsed = some q → q = p) ∧
    (env.addrParseOk = true → cfg.use_key_auth = false → env.tcpError = none →
       env.handshakeOk = true → (connectCore env id cfg).passwordUsed = some p) := by
  rcases hpar : env.addrParseOk
  · simp [connectCore, hpar]
  · rcases ht : env.tcpError with _ | e
    · rcases hs : env.handshakeOk
      · simp [connectCore, hpar, ht, hs]
      · rcases hk : cfg.use_key_auth
        · rcases hpw : env.passwordAuthError p with _ | e <;>
            simp [connectCore, hpar, ht, hs, hk, hsaved, hpw]
        · rcases hkp : cfg.key_path with _ | kp
          · simp [connectCore, hpar, ht, hs, hk, hkp]
          · rcases hka : env.keyAuthError with _ | e <;>
              simp [connectCore, hpar, ht, hs, hk, hkp, hka]
    · simp [connectCore, hpar, ht]

/-- Claim C5: a connection attempt against a definition whose saved
password is present never prompts the operator, and the saved password
is the one passed to the password-authentication step. -/
theorem saved_password_never_prompts (env : NetEnv) (w : World) (id : Nat)
    (cfg : TunnelConfig) (p : String)
    (hlook : regLookup id w.tunnels = some cfg)
    (hsaved : cfg.saved_password = some p) :
    ((connect_tunnel env w id).2).prompted = false ∧
    (∀ q, ((connect_tunnel env w id).2).passwordUsed = some q → q = p) ∧
    (env.addrParseOk = true → cfg.use_key_auth = false → env.tcpError = none →
       env.handshakeOk = true →
       ((connect_tunnel env w id).2).passwordUsed = some p) := by
  have hc := connectCore_saved_password env id cfg p hsaved
  simpa [connect_tunnel, hlook] using hc

/-- Witness for C5: the saved password "x" of `cfgPw` is used without
prompting under a fully-open network environment. -/
theorem saved_password_never_prompts_witness :
    ((connect_tunnel envOpen world0 1).2).prompted = false ∧
    ((connect_tunnel envOpen world0 1).2).passwordUsed = some "x" :=
  ⟨(saved_password_never_prompts envOpen world0 1 cfgPw "x" rfl rfl).1,
   (saved_password_never_prompts envOpen world0 1 cfgPw "x" rfl rfl).2.2 rfl rfl rfl rfl⟩

/-! ### Claim C7 -/

/-- An auto-connect definition under id 1 (IP-literal hostname). -/
def cfgAutoA : TunnelConfig :=
  { id := 1, name := "a", username := "u", hostname := "10.0.0.1",
    local_port := 1, remote_port := 1, use_key_auth := false,
    key_path := none, timeout := 30, auto_connect := true,
    saved_password := some "x" }

/-- An auto-connect definition under id 2 (IP-literal hostname). -/
def cfgAutoB : TunnelConfig :=
  { id := 2, name := "b", username := "u", hostname := "10.0.0.2",
    local_port := 2, remote_port := 2, use_key_auth := false,
    key_path := none, timeout := 30, auto_connect := true,
    saved_password := some "y" }

/-- A stored mapping holding both auto-connect definitions. -/
def recsAuto : List (Nat × StoredRecord) :=
  [(1, serRecord cfgAutoA), (2, serRecord cfgAutoB)]

/-- A startup world whose `tunnels.json` holds `recsAuto`. -/
def worldAuto : World :=
  { tunnels := [], store := .content recsAuto, logLines := [], saveCount := 0 }

/-- Counterexample to C7 as stated: both loaded definitions have
`auto_connect = true` and IP-literal hostnames, but when the first
attempt's SSH handshake fails over the established transport the
`unwrap()` panic kills the process, so only id 1 is attempted and the
sweep is aborted. -/
theorem auto_connect_sweep_aborted_by_panic :
    autoConnectIds (((load_tunnels envsPanic worldAuto).1).tunnels) = [1, 2] ∧
    (load_tunnels envsPanic worldAuto).2.1 = [1] ∧
    (load_tunnels envsPanic worldAuto).2.2 = true :=
  ⟨rfl, rfl, rfl⟩

/-- Claim C7 as amended: provided no attempt panics — every attempted
definition's `hostname:22` parses as a socket address, and no attempt
reaches a failing SSH handshake over an established transport — the
sweep after a successful load attempts exactly the definitions with
`auto_connect = true`, one attempt each, and no individual failure
aborts the remaining attempts.  Either `.unwrap()` panic (address
parse at main.rs line 106, or handshake) aborts the rest. -/
theorem auto_connect_sweep_complete (envs : Nat → NetEnv) (w : World)
    (recs : List (Nat × StoredRecord)) (hst : w.store = .content recs)
    (h : ∀ id ∈ autoConnectIds (deserializeReg recs),
           (envs id).addrParseOk = true ∧
           ((envs id).tcpError ≠ none ∨ (envs id).handshakeOk = true)) :
    (load_tunnels envs w).2.1 = autoConnectIds (deserializeReg recs) ∧
    (load_tunnels envs w).2.2 = false := by
  rcases w with ⟨t, st, lg, sc⟩
  rcases hst
  exact runSweep_total envs _ _ h

/-- Witness for the amended C7: both attempts fail with a network
error, and both ids are still attempted. -/
theorem auto_connect_sweep_complete_witness :
    (load_tunnels envsRefused worldAuto).2.1 = [1, 2] ∧
    (load_tunnels envsRefused worldAuto).2.2 = false :=
  ⟨((auto_connect_sweep_complete envsRefused worldAuto recsAuto rfl (by decide)).1).trans rfl,
   (auto_connect_sweep_complete envsRefused worldAuto recsAuto rfl (by decide)).2⟩

/-! ### Claim C8 -/

/-- Operator answers that set an explicit connect timeout of 0 seconds
(the operator typed `0` at the timeout question). -/
def cliZero : CliInput :=
  { id := 9, name := "z", username := "u", hostname := "h",
    local_port := 1, remote_port := 1, use_key_answer := "n",
    key_path_input := "", timeout_input := some 0, auto_answer := "n",
    save_answer := "n", password_input := "" }

/-- The world after a fresh startup and one add of `cliZero`. -/
def worldZero : World :=
  (add_tunnel (startup envsRefused .absent) (mkCliConfig cliZero)).1

/-- Counterexample to C8 as stated: `read_optional_u64().unwrap_or(30)`
accepts an explicit 0, so a reachable registry state stores a
definition with `timeout = 0`, violating "timeout is always > 0". -/
theorem reachable_timeout_zero :
    Reachable worldZero ∧
    regLookup 9 worldZero.tunnels = some (mkCliConfig cliZero) ∧
    (mkCliConfig cliZero).timeout = 0 :=
  ⟨Reachable.add cliZero (Reachable.startup envsRefused .absent), rfl, rfl⟩

/-- Claim C8 as amended: a record deserialized without a `timeout`
value resolves to 30, and a definition added without an explicit
timeout answer gets 30; but a stored timeout is not guaranteed to be
positive — an explicit 0 is accepted and kept. -/
theorem timeout_defaults_to_thirty (r : StoredRecord) (i : CliInput) :
    (r.timeout = none → (deserRecord r).timeout = 30) ∧
    (i.timeout_input = none → (mkCliConfig i).timeout = 30) :=
  ⟨fun h => by simp [deserRecord, h, default_timeout],
   fun h => by simp [mkCliConfig, h]⟩

/-- Witness for the amended C8 at a record and a CLI answer sheet with
no timeout given. -/
theorem timeout_defaults_to_thirty_witness :
    (deserRecord record0).timeout = 30 ∧
    (mkCliConfig { cliZero with timeout_input := none }).timeout = 30 :=
  ⟨(timeout_defaults_to_thirty record0 cliZero).1 rfl,
   (timeout_defaults_to_thirty record0 { cliZero with timeout_input := none }).2 rfl⟩

/-! ### Claim C9 -/

theorem strContains_mid4 (a b c d : String) :
    strContains (a ++ b ++ c ++ d) b = true := by
  show listInfixB b.data (((a.data ++ b.data) ++ c.data) ++ d.data) = true
  rw [List.append_assoc (a.data ++ b.data)]
  exact listInfixB_middle a.data b.data (c.data ++ d.data)

/-- A password-auth definition stored under id 7; the hostname is an
IP literal (so the address parse succeeds) and no textual component of
the definition or of the network error contains the digit 7. -/
def cfgNet : TunnelConfig :=
  { id := 7, name := "nt", username := "u", hostname := "10.0.0.5",
    local_port := 1, remote_port := 2, use_key_auth := false,
    key_path := none, timeout := 30, auto_connect := false,
    saved_password := some "x" }

/-- A registry holding `cfgNet` under id 7. -/
def worldNet : World :=
  { tunnels := [(7, cfgNet)], store := .absent, logLines := [], saveCount := 0 }

/-- Counterexample to C9 as stated: the network-error log line carries
the hostname but not the tunnel id — connecting to id 7 (address
parse and nothing else succeeding) logs a line in which the id 7 does
not occur. -/
theorem network_error_log_missing_id :
    ((connect_tunnel envRefused worldNet 7).2).outcome = .networkError "refused" ∧
    ((connect_tunnel envRefused worldNet 7).2).logMsg =
      some ("Ошибка подключения к " ++ cfgNet.hostname ++ ": " ++ "refused") ∧
    strContains ("Ошибка подключения к " ++ cfgNet.hostname ++ ": " ++ "refused")
      (Nat.repr 7) = false :=
  ⟨rfl, rfl, by decide⟩

/-- Core of the amended C9: which identifier each terminal log line
carries.  Network, success and authentication lines carry the
hostname; the missing-key-path line carries the id; either panic
(address parse or handshake) kills the process before any line is
written. -/
theorem connectCore_log_mentions (env : NetEnv) (id : Nat) (cfg : TunnelConfig) :
    (∀ e, (connectCore env id cfg).outcome = .networkError e →
       ∃ msg, (connectCore env id cfg).logMsg = some msg ∧
         strContains msg cfg.hostname = true) ∧
    ((connectCore env id cfg).outcome = .missingKeyPath →
       ∃ msg, (connectCore env id cfg).logMsg = some msg ∧
         strContains msg (Nat.repr id) = true) ∧
    ((connectCore env id cfg).outcome = .succeeded →
       ∃ msg, (connectCore env id cfg).logMsg = some msg ∧
         strContains msg cfg.hostname = true) ∧
    (∀ e, (connectCore env id cfg).outcome = .authError e →
       ∃ msg, (connectCore env id cfg).logMsg = some msg ∧
         strContains msg cfg.hostname = true) ∧
    ((connectCore env id cfg).outcome = .panicAddrParse →
       (connectCore env id cfg).logMsg = none) ∧
    ((connectCore env id cfg).outcome = .panicHandshake →
       (connectCore env id cfg).logMsg = none) := by
  rcases hpar : env.addrParseOk
  · simp [connectCore, hpar]
  · rcases ht : env.tcpError with _ | e0
    · rcases hs : env.handshakeOk
      · simp [connectCore, hpar, ht, hs]
      · rcases hk : cfg.use_key_auth
        · rcases hpw : env.passwordAuthError (cfg.saved_password.getD env.promptInput)
            with _ | e1
          · refine ⟨by simp [connectCore, hpar, ht, hs, hk, hpw],
                    by simp [connectCore, hpar, ht, hs, hk, hpw], ?_,
                    by simp [connectCore, hpar, ht, hs, hk, hpw],
                    by simp [connectCore, hpar, ht, hs, hk, hpw],
                    by simp [connectCore, hpar, ht, hs, hk, hpw]⟩
            intro _
            exact ⟨_, by simp [connectCore, hpar, ht, hs, hk, hpw],
              strContains_middle ("Успешное подключение к " ++ cfg.name ++ " (")
                cfg.hostname ")"⟩
          · refine ⟨by simp [connectCore, hpar, ht, hs, hk, hpw],
                    by simp [connectCore, hpar, ht, hs, hk, hpw],
                    by simp [connectCore, hpar, ht, hs, hk, hpw], ?_,
                    by simp [connectCore, hpar, ht, hs, hk, hpw],
                    by simp [connectCore, hpar, ht, hs, hk, hpw]⟩
            intro e he
            exact ⟨_, by simp [connectCore, hpar, ht, hs, hk, hpw],
              strContains_append_right ("Ошибка аутентификации: " ++ e1 ++ " для ")
                cfg.hostname⟩
        · rcases hkp : cfg.key_path with _ | kp
          · refine ⟨by simp [connectCore, hpar, ht, hs, hk, hkp], ?_,
                    by simp [connectCore, hpar, ht, hs, hk, hkp],
                    by simp [connectCore, hpar, ht, hs, hk, hkp],
                    by simp [connectCore, hpar, ht, hs, hk, hkp],
                    by simp [connectCore, hpar, ht, hs, hk, hkp]⟩
            intro _
            exact ⟨_, by simp [connectCore, hpar, ht, hs, hk, hkp],
              strContains_append_right "Ошибка: Путь к SSH-ключу не указан для ID "
                (Nat.repr id)⟩
          · rcases hka : env.keyAuthError with _ | e1
            · refine ⟨by simp [connectCore, hpar, ht, hs, hk, hkp, hka],
                      by simp [connectCore, hpar, ht, hs, hk, hkp, hka], ?_,
                      by simp [connectCore, hpar, ht, hs, hk, hkp, hka],
                      by simp [connectCore, hpar, ht, hs, hk, hkp, hka],
                      by simp [connectCore, hpar, ht, hs, hk, hkp, hka]⟩
              intro _
              exact ⟨_, by simp [connectCore, hpar, ht, hs, hk, hkp, hka],
                strContains_middle ("Успешное подключение к " ++ cfg.name ++ " (")
                  cfg.hostname ")"⟩
            · refine ⟨by simp [connectCore, hpar, ht, hs, hk, hkp, hka],
                      by simp [connectCore, hpar, ht, hs, hk, hkp, hka],
                      by simp [connectCore, hpar, ht, hs, hk, hkp, hka], ?_,
                      by simp [connectCore, hpar, ht, hs, hk, hkp, hka],
                      by simp [connectCore, hpar, ht, hs, hk, hkp, hka]⟩
              intro e he
              exact ⟨_, by simp [connectCore, hpar, ht, hs, hk, hkp, hka],
                strContains_append_right ("Ошибка аутентификации: " ++ e1 ++ " для ")
                  cfg.hostname⟩
    · refine ⟨?_, by simp [connectCore, hpar, ht], by simp [connectCore, hpar, ht],
              by simp [connectCore, hpar, ht], by simp [connectCore, hpar, ht],
              by simp [connectCore, hpar, ht]⟩
      intro e he
      exact ⟨_, by simp [connectCore, hpar, ht],
        strContains_mid4 "Ошибка подключения к " cfg.hostname ": " e0⟩

/-- Claim C9 as amended: every terminal outcome's log line names the
hostname, except the missing-key-path line which names the id instead;
neither panic (address parse at main.rs line 106, or handshake) writes
any line at all.  The original claim — id AND hostname on every line —
fails, see the counterexample. -/
theorem terminal_outcome_log_context (env : NetEnv) (w : World) (id : Nat)
    (cfg : TunnelConfig) (hlook : regLookup id w.tunnels = some cfg) :
    (∀ e, ((connect_tunnel env w id).2).outcome = .networkError e →
       ∃ msg, ((connect_tunnel env w id).2).logMsg = some msg ∧
         strContains msg cfg.hostname = true) ∧
    (((connect_tunnel env w id).2).outcome = .missingKeyPath →
       ∃ msg, ((connect_tunnel env w id).2).logMsg = some msg ∧
         strContains msg (Nat.repr id) = true) ∧
    (((connect_tunnel env w id).2).outcome = .succeeded →
       ∃ msg, ((connect_tunnel env w id).2).logMsg = some msg ∧
         strContains msg cfg.hostname = true) ∧
    (∀ e, ((connect_tunnel env w id).2).outcome = .authError e →
       ∃ msg, ((connect_tunnel env w id).2).logMsg = some msg ∧
         strContains msg cfg.hostname = true) ∧
    (((connect_tunnel env w id).2).outcome = .panicAddrParse →
       ((connect_tunnel env w id).2).logMsg = none) ∧
    (((connect_tunnel env w id).2).outcome = .panicHandshake →
       ((connect_tunnel env w id).2).logMsg = none) := by
  have hc := connectCore_log_mentions env id cfg
  simpa [connect_tunnel, hlook] using hc

/-- Witness for the amended C9: the concrete network failure against
id 7 produces a log line containing the hostname. -/
theorem terminal_outcome_log_context_witness :
    ∃ msg, ((connect_tunnel envRefused worldNet 7).2).logMsg = some msg ∧
      strContains msg cfgNet.hostname = true :=
  (terminal_outcome_log_context envRefused worldNet 7 cfgNet rfl).1 "refused" rfl
